import Mathlib

/-!
Shallow embedding of the F-dash telemetry dashboard: the browser client
(src/app.js, class CraneMonitor) and the backend channel server
(src/unnamed/part_001, the express/ws process).  Machine numbers are
modelled as rationals and integers; JSON objects as association lists;
the timer-driven reconnect logic as an explicit state machine.
-/

namespace FDash

/-! ## Client: snapshot-to-UI reduction (src/app.js) -/

/-- Severity class that updateUI attaches to the load-percent element:
no class at all (normal), the warning class, or the danger class. -/
inductive Severity where
  | normal
  | warning
  | danger
deriving DecidableEq, Repr

/-- JavaScript fallback on a string field that may be absent: models the
expression x || d where undefined and the empty string are falsy. -/
def jsOrString (x : Option String) (d : String) : String :=
  match x with
  | none => d
  | some s => if s = "" then d else s

/-- The display elements written by CraneMonitor.updateSafetyStatus
(src/app.js lines 165-195): the status-light class (none right after the
reset statusLight.className equals the bare base class), the status text,
the two optional classes of the safety banner (hidden and danger; the reset
banner.className equals the bare base class, so both start false on every
call), and the banner message element. -/
structure SafetyUI where
  statusLightClass : Option String
  statusText : String
  bannerHidden : Bool
  bannerDanger : Bool
  message : String
deriving DecidableEq, Repr

/-- CraneMonitor.updateSafetyStatus (src/app.js lines 165-195): resets the
status-light and banner class lists, then dispatches on the safety level.
The switch has cases for safe, warning, and a shared overload/cutoff case;
any other level falls through the switch leaving text fields untouched. -/
def updateSafetyStatus (ui : SafetyUI) (level : String) : SafetyUI :=
  let ui0 : SafetyUI :=
    { ui with statusLightClass := none, bannerHidden := false, bannerDanger := false }
  if level = "safe" then
    { ui0 with statusLightClass := some "safe", statusText := "Safe", bannerHidden := true }
  else if level = "warning" then
    { ui0 with statusLightClass := some "warning", statusText := "Warning",
               message := "⚠️ Load approaching limit", bannerHidden := false }
  else if level = "overload" ∨ level = "cutoff" then
    { ui0 with statusLightClass := some "danger",
               statusText := if level = "cutoff" then "CUTOFF" else "Overload",
               message := "🚨 OVERLOAD - Operations stopped",
               bannerDanger := true, bannerHidden := false }
  else ui0

/-- The safety-status call made by CraneMonitor.updateUI (src/app.js line 133):
updateSafetyStatus receives data.safety_level || 'safe'. -/
def dispatchSafety (ui : SafetyUI) (safety_level : Option String) : SafetyUI :=
  updateSafetyStatus ui (jsOrString safety_level "safe")

/-- JavaScript Number.prototype.toFixed(1) on the nonnegative percentages the
dashboard computes: rounding to one decimal place, halves rounding up. -/
def toFixed1 (q : ℚ) : ℚ := (Int.floor (q * 10 + 1 / 2) : ℚ) / 10

/-- Guard of the load-percent block in CraneMonitor.updateUI (src/app.js
line 121): data.load && data.swl && data.swl > 0, with JavaScript
truthiness (an absent field and the number 0 are both falsy). -/
def percentRendered (load swl : Option ℚ) : Bool :=
  match load, swl with
  | some l, some s => decide (l ≠ 0) && (decide (s ≠ 0) && decide (0 < s))
  | _, _ => false

/-- Severity class the load-percent element receives (src/app.js lines
122-129): percent holds the display string (load / swl * 100).toFixed(1),
which the comparisons percent >= 95 and percent >= 80 coerce back to its
rounded numeric value. -/
def percentSeverity (load swl : ℚ) : Severity :=
  let percent := toFixed1 (load / swl * 100)
  if 95 ≤ percent then Severity.danger
  else if 80 ≤ percent then Severity.warning
  else Severity.normal

/-- The four colors a limit-switch test indicator can show. -/
inductive IndicatorColor where
  | grey
  | green
  | yellow
  | red
deriving DecidableEq, Repr

/-- CraneMonitor.updateTestIndicator (src/app.js lines 234-248): resets the
indicator class then picks one color from the (tested, hit) pair. -/
def updateTestIndicator (tested hit : Bool) : IndicatorColor :=
  if hit then (if tested then IndicatorColor.yellow else IndicatorColor.red)
  else (if tested then IndicatorColor.green else IndicatorColor.grey)

/-! ## Client: reconnect state machine (src/app.js lines 28-92)

The CraneMonitor fields relevant to reconnection are this.reconnectTimer
(a timeout handle or null) and the set of timeouts actually outstanding in
the event loop.  The two differ exactly when a timeout has fired: the
setTimeout callback (line 87-90) calls setupWebSocket but never clears
this.reconnectTimer.  Handles are modelled as consecutive naturals. -/

/-- Fixed reconnect delay, this.reconnectInterval (src/app.js line 8). -/
def reconnectInterval : Nat := 5000

/-- Events delivered to the client by the browser event loop: a transport
failure or close (ws.onclose, hence onDisconnect), the firing of an
outstanding reconnect timeout, and a successful open (ws.onopen, hence
onConnect). -/
inductive ClientEvent where
  | fail
  | timerFire
  | connectOk
deriving DecidableEq, Repr

/-- Client state: the stored handle this.reconnectTimer, the queue of
outstanding (set, not yet fired, not cleared) timeouts, the connection
indicator, a fresh-handle counter, and the running count of connection
attempts (calls of setupWebSocket that construct a WebSocket). -/
structure ClientState where
  reconnectTimer : Option Nat
  pending : List Nat
  connected : Bool
  nextId : Nat
  attempts : Nat
deriving DecidableEq, Repr

/-- CraneMonitor.scheduleReconnect (src/app.js lines 85-92): if
this.reconnectTimer is null, set a timeout after reconnectInterval and store
its handle; otherwise do nothing. -/
def scheduleReconnect (s : ClientState) : ClientState :=
  if s.reconnectTimer.isNone then
    { s with reconnectTimer := some s.nextId,
             pending := s.pending ++ [s.nextId],
             nextId := s.nextId + 1 }
  else s

/-- One event step of the client.  fail is onDisconnect (lines 79-83): mark
disconnected, then scheduleReconnect.  timerFire removes the due timeout from
the event loop and runs its callback (lines 87-90): setupWebSocket makes a new
connection attempt; the callback does not clear this.reconnectTimer.
connectOk is onConnect (lines 55-62): mark connected and, if a handle is
stored, clearTimeout it (a no-op when it already fired) and null the field. -/
def step (s : ClientState) : ClientEvent → ClientState
  | ClientEvent.fail => scheduleReconnect { s with connected := false }
  | ClientEvent.timerFire =>
    match s.pending with
    | [] => s
    | _ :: rest => { s with pending := rest, attempts := s.attempts + 1 }
  | ClientEvent.connectOk =>
    match s.reconnectTimer with
    | none => { s with connected := true }
    | some id => { s with connected := true,
                          pending := s.pending.erase id,
                          reconnectTimer := none }

/-- Run a sequence of events. -/
def run (s : ClientState) (es : List ClientEvent) : ClientState :=
  es.foldl step s

/-- State right after the constructor ran init and setupWebSocket made the
initial connection attempt: no timer stored, no timeout outstanding, not yet
connected, one attempt made. -/
def initState : ClientState :=
  { reconnectTimer := none, pending := [], connected := false,
    nextId := 0, attempts := 1 }

/-! ## Server: channel gateway and history buffer (src/unnamed/part_001) -/

/-- Observable outcome of the wss connection handler (part_001 lines
113-135): the close frame delivered to the peer (code and reason), if any,
and whether the per-connection tick interval was started. -/
structure ConnResult where
  closeFrame : Option (Nat × String)
  sessionStarted : Bool
deriving DecidableEq, Repr

/-- The wss.on connection handler (part_001 lines 113-135).  The token is the
value extracted from the query string: none when the URL has no query or no
token parameter; an empty-string value is falsy under the !token test.  A
missing token closes with (1008, Unauthorized); a token rejected by
jwt.verify (modelled by the verify predicate) closes with
(1008, Invalid token); only a verified token reaches the code that starts
the tick interval. -/
def handleConnection (token : Option String) (verify : String → Bool) : ConnResult :=
  match token with
  | none => { closeFrame := some (1008, "Unauthorized"), sessionStarted := false }
  | some t =>
    if t = "" then { closeFrame := some (1008, "Unauthorized"), sessionStarted := false }
    else if verify t then { closeFrame := none, sessionStarted := true }
    else { closeFrame := some (1008, "Invalid token"), sessionStarted := false }

/-- Appends to the shared readings buffer attributable to one connection:
each tick of its interval pushes exactly one snapshot (part_001 line 151);
a connection whose handler never started the interval contributes none. -/
def connectionAppends (r : ConnResult) (ticks : Nat) : Nat :=
  if r.sessionStarted then ticks else 0

/-- Telemetry messages sent to one peer: each tick of its interval sends
exactly one serialized snapshot (part_001 line 161); a rejected connection
receives none. -/
def connectionSends (r : ConnResult) (ticks : Nat) : Nat :=
  if r.sessionStarted then ticks else 0

/-- Capacity bound of the in-memory readings buffer (part_001 line 153). -/
def capacity : Nat := 1000

/-- One tick append to the readings buffer (part_001 lines 151-155):
readings.push(data), then if readings.length > 1000 the buffer is replaced
by readings.slice(-1000), the last 1000 entries in order. -/
def appendReading {α : Type} (readings : List α) (x : α) : List α :=
  let r := readings ++ [x]
  if r.length > capacity then r.drop (r.length - capacity) else r

/-- Fold a whole sequence of appends into the buffer. -/
def appendAll {α : Type} (start : List α) (xs : List α) : List α :=
  xs.foldl appendReading start

/-- JSON values appearing in the tick message. -/
inductive JVal where
  | num (q : ℚ)
  | int (n : ℤ)
  | bool (b : Bool)
  | str (s : String)
  | obj (fields : List (String × JVal))
  | date (t : ℤ)

/-- The JSON object built and sent once per tick (part_001 lines 137-147), as
the ordered list of its fields.  The Math.random draws are parameters; swl is
the constant 2500, safety_level the constant safe, counters the fixed
liftup/liftdown object. -/
def tickData (loadDraw forkDraw : ℚ) (batteryDraw utilMinutes : ℤ)
    (utilActive : Bool) (now : ℤ) : List (String × JVal) :=
  [("load", JVal.num loadDraw),
   ("swl", JVal.num 2500),
   ("fork_position", JVal.num forkDraw),
   ("battery", JVal.int batteryDraw),
   ("safety_level", JVal.str "safe"),
   ("utilization_minutes", JVal.int utilMinutes),
   ("utilization_active", JVal.bool utilActive),
   ("counters", JVal.obj [("liftup", JVal.int 10), ("liftdown", JVal.int 5)]),
   ("timestamp", JVal.date now)]

/-! ## Theorems -/

/-- A blank display state used for concrete evaluations. -/
def uiBlank : SafetyUI :=
  { statusLightClass := none, statusText := "", bannerHidden := false,
    bannerDanger := false, message := "" }

/-- C1 counterexample: the banner message written for a cutoff snapshot is the
very same string written for an overload snapshot, so the banner message text
does not distinguish cutoff from plain overload. -/
theorem cutoff_overload_same_message :
    (updateSafetyStatus uiBlank "cutoff").message =
      (updateSafetyStatus uiBlank "overload").message ∧
    (updateSafetyStatus uiBlank "cutoff").message =
      "🚨 OVERLOAD - Operations stopped" :=
  ⟨rfl, rfl⟩

/-- C1 (amended): for both overload and cutoff the banner is visible with the
danger severity class and the same status-light class; the shared banner
message mentions operations stopped, and it is the status text, not the banner
message, that distinguishes cutoff (CUTOFF) from overload (Overload). -/
theorem overload_cutoff_banner (ui : SafetyUI) :
    (updateSafetyStatus ui "overload").bannerHidden = false ∧
    (updateSafetyStatus ui "overload").bannerDanger = true ∧
    (updateSafetyStatus ui "cutoff").bannerHidden = false ∧
    (updateSafetyStatus ui "cutoff").bannerDanger = true ∧
    (updateSafetyStatus ui "cutoff").message =
      (updateSafetyStatus ui "overload").message ∧
    (updateSafetyStatus ui "cutoff").message = "🚨 OVERLOAD - Operations stopped" ∧
    (updateSafetyStatus ui "cutoff").statusText = "CUTOFF" ∧
    (updateSafetyStatus ui "overload").statusText = "Overload" ∧
    (updateSafetyStatus ui "cutoff").statusLightClass =
      (updateSafetyStatus ui "overload").statusLightClass :=
  ⟨rfl, rfl, rfl, rfl, rfl, rfl, rfl, rfl, rfl⟩

/-- C5: the limit-switch test indicator color follows exactly the four-entry
table on the (tested, hit) pair, and recomputing from the same pair always
yields the same color. -/
theorem testIndicator_table :
    updateTestIndicator false false = IndicatorColor.grey ∧
    updateTestIndicator true false = IndicatorColor.green ∧
    updateTestIndicator true true = IndicatorColor.yellow ∧
    updateTestIndicator false true = IndicatorColor.red ∧
    ∀ tested hit : Bool, updateTestIndicator tested hit = updateTestIndicator tested hit := by
  refine ⟨rfl, rfl, rfl, rfl, ?_⟩
  intro tested hit
  rfl

/-- C6: a connection request carrying no token is closed with code 1008 before
any telemetry is sent, starts no tick interval (no ConnectionSession), and
contributes no append to the readings buffer, whatever the verifier and
however many ticks elapse. -/
theorem noToken_closed_1008 (verify : String → Bool) (ticks : Nat) :
    (handleConnection none verify).closeFrame = some (1008, "Unauthorized") ∧
    (handleConnection none verify).sessionStarted = false ∧
    connectionAppends (handleConnection none verify) ticks = 0 ∧
    connectionSends (handleConnection none verify) ticks = 0 :=
  ⟨rfl, rfl, rfl, rfl⟩

/-- C7 counterexample: the close frame delivered for a missing token differs
from the close frame delivered for a token that fails verification (the codes
agree on 1008 but the reasons are Unauthorized versus Invalid token), so the
two causes are distinguishable by the peer. -/
theorem close_frames_differ :
    (handleConnection none (fun _ => false)).closeFrame ≠
      (handleConnection (some "guess") (fun _ => false)).closeFrame := by
  decide

/-- C7 (amended): a missing token and a token that fails verification are both
closed with code 1008 and neither starts a session, but the close reasons
differ (Unauthorized versus Invalid token), so the peer can tell the two
causes apart by the reason string even though the code is shared. -/
theorem both_rejections_close_1008 (verify : String → Bool) (t : String)
    (ht : t ≠ "") (hv : verify t = false) :
    (handleConnection none verify).closeFrame.map Prod.fst = some 1008 ∧
    (handleConnection (some t) verify).closeFrame.map Prod.fst = some 1008 ∧
    (handleConnection none verify).closeFrame = some (1008, "Unauthorized") ∧
    (handleConnection (some t) verify).closeFrame = some (1008, "Invalid token") ∧
    (handleConnection none verify).sessionStarted = false ∧
    (handleConnection (some t) verify).sessionStarted = false := by
  simp [handleConnection, ht, hv]

/-- Witness for C7: the amended theorem applied to the always-rejecting
verifier and the concrete token guess. -/
theorem both_rejections_close_1008_witness :
    ("guess" ≠ "") ∧
    ((handleConnection none (fun _ => false)).closeFrame.map Prod.fst = some 1008 ∧
     (handleConnection (some "guess") (fun _ => false)).closeFrame.map Prod.fst = some 1008 ∧
     (handleConnection none (fun _ => false)).closeFrame = some (1008, "Unauthorized") ∧
     (handleConnection (some "guess") (fun _ => false)).closeFrame = some (1008, "Invalid token") ∧
     (handleConnection none (fun _ => false)).sessionStarted = false ∧
     (handleConnection (some "guess") (fun _ => false)).sessionStarted = false) :=
  ⟨by decide, both_rejections_close_1008 (fun _ => false) "guess" (by decide) rfl⟩

/-- C9 counterexample: the tick message built by the server has no test_mode
field at all (its keys are the forklift fields), so the claimed wire shape
fails on the very first tick. -/
theorem tick_missing_test_mode :
    "test_mode" ∉ (tickData 0 0 0 0 false 0).map Prod.fst := by
  decide

/-- C9 (amended): every tick message is a JSON object whose fields are exactly
load, swl, fork_position, battery, safety_level, utilization_minutes,
utilization_active, counters and timestamp, in that order; it contains none of
test_mode, hoist_active, trolley_active, slew_active, status_word,
overload_active or bypass_active. -/
theorem tickData_fields (loadDraw forkDraw : ℚ) (batteryDraw utilMinutes : ℤ)
    (utilActive : Bool) (now : ℤ) :
    (tickData loadDraw forkDraw batteryDraw utilMinutes utilActive now).map Prod.fst =
      ["load", "swl", "fork_position", "battery", "safety_level",
       "utilization_minutes", "utilization_active", "counters", "timestamp"] ∧
    "test_mode" ∉ (tickData loadDraw forkDraw batteryDraw utilMinutes utilActive now).map Prod.fst ∧
    "hoist_active" ∉ (tickData loadDraw forkDraw batteryDraw utilMinutes utilActive now).map Prod.fst ∧
    "trolley_active" ∉ (tickData loadDraw forkDraw batteryDraw utilMinutes utilActive now).map Prod.fst ∧
    "slew_active" ∉ (tickData loadDraw forkDraw batteryDraw utilMinutes utilActive now).map Prod.fst ∧
    "status_word" ∉ (tickData loadDraw forkDraw batteryDraw utilMinutes utilActive now).map Prod.fst ∧
    "overload_active" ∉ (tickData loadDraw forkDraw batteryDraw utilMinutes utilActive now).map Prod.fst ∧
    "bypass_active" ∉ (tickData loadDraw forkDraw batteryDraw utilMinutes utilActive now).map Prod.fst := by
  have hkeys : (tickData loadDraw forkDraw batteryDraw utilMinutes utilActive now).map Prod.fst =
      ["load", "swl", "fork_position", "battery", "safety_level",
       "utilization_minutes", "utilization_active", "counters", "timestamp"] := rfl
  refine ⟨hkeys, ?_, ?_, ?_, ?_, ?_, ?_, ?_⟩ <;> · rw [hkeys]; decide

/-- C10: a safety level outside the four known values resets the banner class
list, removing both hidden (the banner becomes visible) and danger, and resets
the status light, while the banner message and status text keep whatever the
previous snapshot wrote; an absent or empty safety_level is replaced by safe
before the dispatch, so it does not take this path. -/
theorem unknownLevel_keeps_stale_text (ui : SafetyUI) (level : String)
    (h1 : level ≠ "safe") (h2 : level ≠ "warning")
    (h3 : level ≠ "overload") (h4 : level ≠ "cutoff") :
    (updateSafetyStatus ui level).bannerHidden = false ∧
    (updateSafetyStatus ui level).bannerDanger = false ∧
    (updateSafetyStatus ui level).statusLightClass = none ∧
    (updateSafetyStatus ui level).message = ui.message ∧
    (updateSafetyStatus ui level).statusText = ui.statusText ∧
    jsOrString none "safe" = "safe" ∧
    jsOrString (some "") "safe" = "safe" := by
  simp [updateSafetyStatus, jsOrString, h1, h2, h3, h4]

/-- Witness for C10: the theorem applied to the blank display state and the
concrete unknown level bogus. -/
theorem unknownLevel_keeps_stale_text_witness :
    (("bogus" : String) ≠ "safe") ∧
    ((updateSafetyStatus uiBlank "bogus").bannerHidden = false ∧
     (updateSafetyStatus uiBlank "bogus").bannerDanger = false ∧
     (updateSafetyStatus uiBlank "bogus").statusLightClass = none ∧
     (updateSafetyStatus uiBlank "bogus").message = uiBlank.message ∧
     (updateSafetyStatus uiBlank "bogus").statusText = uiBlank.statusText ∧
     jsOrString none "safe" = "safe" ∧
     jsOrString (some "") "safe" = "safe") :=
  ⟨by decide,
   unknownLevel_keeps_stale_text uiBlank "bogus"
     (by decide) (by decide) (by decide) (by decide)⟩

/-- C2 counterexample: with load 79.96 and swl 100 the exact load percent is
79.96, below 80, so the claim requires the normal severity, but the code
compares the rounded display value 80.0 and classifies it as warning; and with
load 0 and swl 100 the claim requires a rendered normal severity, but the
guard data.load is falsy and nothing is rendered. -/
theorem percent_threshold_cex :
    percentSeverity (1999 / 25) 100 = Severity.warning ∧
    ((1999 : ℚ) / 25) / 100 * 100 < 80 ∧
    percentRendered (some 0) (some 100) = false := by
  refine ⟨?_, by norm_num, rfl⟩
  have h : toFixed1 ((1999 : ℚ) / 25 / 100 * 100) = 80 := by norm_num [toFixed1]
  simp only [percentSeverity, h]
  norm_num

/-- C2 (amended): the load percent is rendered exactly when the snapshot has a
nonzero load and a positive swl (a zero or absent load also suppresses
rendering, beyond the claimed swl conditions), and the severity is classified
from the displayed percent rounded to one decimal rather than the exact
quotient: normal iff the rounded value is below 80, warning iff it is at least
80 and below 95, danger iff it is at least 95. -/
theorem percent_severity_thresholds (l s : ℚ) :
    (percentRendered (some l) (some s) = true ↔ l ≠ 0 ∧ 0 < s) ∧
    (percentSeverity l s = Severity.normal ↔ toFixed1 (l / s * 100) < 80) ∧
    (percentSeverity l s = Severity.warning ↔
      80 ≤ toFixed1 (l / s * 100) ∧ toFixed1 (l / s * 100) < 95) ∧
    (percentSeverity l s = Severity.danger ↔ 95 ≤ toFixed1 (l / s * 100)) ∧
    percentRendered none (some s) = false ∧
    percentRendered (some l) none = false ∧
    percentRendered (some 0) (some s) = false := by
  refine ⟨?_, ?_, ?_, ?_, rfl, rfl, rfl⟩
  · simp only [percentRendered, Bool.and_eq_true, decide_eq_true_eq]
    constructor
    · rintro ⟨h1, _, h3⟩
      exact ⟨h1, h3⟩
    · rintro ⟨h1, h3⟩
      exact ⟨h1, h3.ne', h3⟩
  · simp only [percentSeverity]
    split
    · next h1 =>
      exact ⟨fun hx => absurd hx (by decide),
             fun hx => absurd h1 (not_le.mpr (hx.trans (by norm_num)))⟩
    · next h1 =>
      split
      · next h2 =>
        exact ⟨fun hx => absurd hx (by decide), fun hx => absurd h2 (not_le.mpr hx)⟩
      · next h2 =>
        exact ⟨fun _ => not_le.mp h2, fun _ => rfl⟩
  · simp only [percentSeverity]
    split
    · next h1 =>
      exact ⟨fun hx => absurd hx (by decide), fun hx => absurd h1 (not_le.mpr hx.2)⟩
    · next h1 =>
      split
      · next h2 =>
        exact ⟨fun _ => ⟨h2, not_le.mp h1⟩, fun _ => rfl⟩
      · next h2 =>
        exact ⟨fun hx => absurd hx (by decide), fun hx => absurd hx.1 h2⟩
  · simp only [percentSeverity]
    split
    · next h1 =>
      exact ⟨fun _ => h1, fun _ => rfl⟩
    · next h1 =>
      split
      · next h2 =>
        exact ⟨fun hx => absurd hx (by decide), fun hx => absurd hx h1⟩
      · next h2 =>
        exact ⟨fun hx => absurd hx (by decide), fun hx => absurd hx h1⟩

/-- Invariant tying the stored handle to the outstanding timeouts: at most one
reconnect timeout is outstanding, and when one is, it is the stored handle. -/
def ReconnectInv (s : ClientState) : Prop :=
  s.pending = [] ∨ ∃ id, s.reconnectTimer = some id ∧ s.pending = [id]

theorem reconnectInv_step (s : ClientState) (e : ClientEvent)
    (h : ReconnectInv s) : ReconnectInv (step s e) := by
  unfold ReconnectInv at h ⊢
  obtain ⟨t, p, c, n, a⟩ := s
  cases e with
  | fail =>
    cases t with
    | none =>
      rcases h with hp | ⟨id, hid, hp⟩
      · replace hp : p = [] := hp
        subst hp
        exact Or.inr ⟨n, rfl, rfl⟩
      · exact Option.noConfusion hid
    | some id => exact h
  | timerFire =>
    cases p with
    | nil => exact h
    | cons x rest =>
      rcases h with hp | ⟨id, hid, hp⟩
      · replace hp : x :: rest = [] := hp
        exact List.noConfusion hp
      · replace hp : x :: rest = [id] := hp
        injection hp with hx hrest
        subst hrest
        exact Or.inl rfl
  | connectOk =>
    cases t with
    | none =>
      rcases h with hp | ⟨id, hid, hp⟩
      · exact Or.inl hp
      · exact Option.noConfusion hid
    | some id =>
      rcases h with hp | ⟨id2, hid, hp⟩
      · replace hp : p = [] := hp
        subst hp
        exact Or.inl rfl
      · replace hid : some id = some id2 := hid
        injection hid with hii
        subst hii
        replace hp : p = [id] := hp
        subst hp
        left
        show List.erase [id] id = []
        simp

theorem reconnectInv_run (es : List ClientEvent) (s : ClientState)
    (h : ReconnectInv s) : ReconnectInv (run s es) := by
  induction es generalizing s with
  | nil => exact h
  | cons e rest ih => exact ih (step s e) (reconnectInv_step s e h)

/-- C3 (code bug): the reconnect trace that starts a timer, lets it fire, and
fails again.  The first failure schedules one reconnect after the 5000 ms
interval; the fired timer makes the one new attempt but the callback leaves
this.reconnectTimer set, so when that attempt fails the guard in
scheduleReconnect sees the stale handle and schedules nothing: no timeout is
outstanding and no further attempt is ever made. -/
theorem reconnect_stalls_after_fired_timer :
    reconnectInterval = 5000 ∧
    (run initState [ClientEvent.fail]).pending.length = 1 ∧
    (run initState [ClientEvent.fail, ClientEvent.timerFire]).attempts = 2 ∧
    (run initState [ClientEvent.fail, ClientEvent.timerFire]).reconnectTimer = some 0 ∧
    (run initState [ClientEvent.fail, ClientEvent.timerFire, ClientEvent.fail]).pending = [] ∧
    (run initState [ClientEvent.fail, ClientEvent.timerFire, ClientEvent.fail]).attempts = 2 ∧
    (run initState [ClientEvent.fail, ClientEvent.timerFire, ClientEvent.fail]).connected = false := by
  decide

theorem at_most_one_aux (s : ClientState) (hinv : ReconnectInv s) :
    s.pending.length ≤ 1 ∧
    (s.reconnectTimer.isSome = true →
      (step s ClientEvent.fail).pending = s.pending) ∧
    (step s ClientEvent.connectOk).pending = [] ∧
    (step s ClientEvent.connectOk).reconnectTimer = none ∧
    step (step s ClientEvent.connectOk) ClientEvent.connectOk =
      step s ClientEvent.connectOk := by
  unfold ReconnectInv at hinv
  obtain ⟨t, p, c, n, a⟩ := s
  refine ⟨?_, ?_, ?_, ?_, ?_⟩
  · rcases hinv with hp | ⟨id, hid, hp⟩
    · replace hp : p = [] := hp
      subst hp
      exact Nat.zero_le 1
    · replace hp : p = [id] := hp
      subst hp
      exact Nat.le_refl 1
  · cases t with
    | none => intro hx; exact Bool.noConfusion hx
    | some id => intro _; rfl
  · cases t with
    | none =>
      rcases hinv with hp | ⟨id, hid, hp⟩
      · exact hp
      · exact Option.noConfusion hid
    | some id =>
      rcases hinv with hp | ⟨id2, hid, hp⟩
      · replace hp : p = [] := hp
        subst hp
        rfl
      · replace hid : some id = some id2 := hid
        injection hid with hii
        subst hii
        replace hp : p = [id] := hp
        subst hp
        show List.erase [id] id = []
        simp
  · cases t with
    | none => rfl
    | some id => rfl
  · cases t with
    | none => rfl
    | some id => rfl

/-- C4: at every state reachable from the initial one, at most one reconnect
timeout is outstanding; a further failure while the stored handle is set
leaves the outstanding timeouts unchanged (no second timer); and a successful
connection cancels any outstanding timeout and clears the handle, with the
cancel idempotent (a second connect step changes nothing). -/
theorem at_most_one_reconnect_timer (es : List ClientEvent) :
    (run initState es).pending.length ≤ 1 ∧
    ((run initState es).reconnectTimer.isSome = true →
      (step (run initState es) ClientEvent.fail).pending = (run initState es).pending) ∧
    (step (run initState es) ClientEvent.connectOk).pending = [] ∧
    (step (run initState es) ClientEvent.connectOk).reconnectTimer = none ∧
    step (step (run initState es) ClientEvent.connectOk) ClientEvent.connectOk =
      step (run initState es) ClientEvent.connectOk :=
  at_most_one_aux (run initState es) (reconnectInv_run es initState (Or.inl rfl))

/-- The buffer left by folding a whole sequence of appends into the empty
buffer is the suffix of the sequence past its first length minus capacity
elements: the appends that survive eviction, in append order. -/
theorem appendAll_nil_eq_drop {α : Type} (xs : List α) :
    appendAll ([] : List α) xs = xs.drop (xs.length - capacity) := by
  induction xs using List.reverseRecOn with
  | nil => simp [appendAll]
  | append_singleton ys y ih =>
    have hcap : capacity = 1000 := rfl
    have hstep : appendAll ([] : List α) (ys ++ [y]) =
        appendReading (appendAll ([] : List α) ys) y := by
      simp [appendAll, List.foldl_append]
    rw [hstep, ih]
    simp only [appendReading]
    split
    · next hgt =>
      simp only [List.length_append, List.length_cons, List.length_nil,
                 List.length_drop] at hgt
      have hge : capacity ≤ ys.length := by omega
      have hA : (ys.drop (ys.length - capacity)).length = capacity := by
        simp only [List.length_drop]
        omega
      have hidx : ((ys.drop (ys.length - capacity)) ++ [y]).length - capacity = 1 := by
        simp only [List.length_append, List.length_cons, List.length_nil, hA]
        omega
      rw [hidx]
      rw [@List.drop_append_of_le_length α (ys.drop (ys.length - capacity)) [y] 1
            (by rw [hA]; omega)]
      rw [List.drop_drop]
      have hidx3 : (ys ++ [y]).length - capacity = ys.length - capacity + 1 := by
        simp only [List.length_append, List.length_cons, List.length_nil]
        omega
      rw [hidx3]
      rw [@List.drop_append_of_le_length α ys [y] (ys.length - capacity + 1) (by omega)]
    · next hle =>
      simp only [List.length_append, List.length_cons, List.length_nil,
                 List.length_drop, gt_iff_lt, not_lt] at hle
      have h0 : ys.length - capacity = 0 := by omega
      have h1 : (ys ++ [y]).length - capacity = 0 := by
        simp only [List.length_append, List.length_cons, List.length_nil]
        omega
      rw [h0, h1, List.drop_zero, List.drop_zero]

/-- C8: after appending more than 1000 snapshots to the empty readings buffer the
buffer holds exactly 1000 entries, namely the last 1000 appended snapshots in
append order; and a single append never leaves the buffer above 1000 entries,
whatever buffer it starts from. -/
theorem historyBuffer_bounded {α : Type} (xs : List α) (h : 1000 < xs.length) :
    (appendAll ([] : List α) xs).length = 1000 ∧
    appendAll ([] : List α) xs = xs.drop (xs.length - 1000) ∧
    ∀ (readings : List α) (x : α), (appendReading readings x).length ≤ 1000 := by
  have hmain := appendAll_nil_eq_drop xs
  have hcap : capacity = 1000 := rfl
  refine ⟨?_, by rw [← hcap]; exact hmain, ?_⟩
  · rw [hmain]
    simp only [List.length_drop]
    omega
  · intro readings x
    simp only [appendReading]
    split
    · next hgt =>
      simp only [List.length_drop, List.length_append, List.length_cons, List.length_nil]
      omega
    · next hle =>
      simp only [List.length_append, List.length_cons, List.length_nil, gt_iff_lt,
                 not_lt] at hle ⊢
      omega

/-- Witness for C8: the theorem applied to the 1001 first naturals. -/
theorem historyBuffer_bounded_witness :
    1000 < (List.range 1001).length ∧
    ((appendAll ([] : List ℕ) (List.range 1001)).length = 1000 ∧
     appendAll ([] : List ℕ) (List.range 1001) =
       (List.range 1001).drop ((List.range 1001).length - 1000) ∧
     ∀ (readings : List ℕ) (x : ℕ), (appendReading readings x).length ≤ 1000) :=
  ⟨by simp, historyBuffer_bounded (List.range 1001) (by simp)⟩

end FDash
